import Mathlib

/-!
# StoryLift — verification of the frame-composition / encode pipeline services

Shallow embedding of the StoryLift repository's core services and proofs of
the specification claims about them.  Each definition is translated from the
TypeScript source:

* `RateLimitingService` (rate limiting and abuse prevention),
* `ErrorHandlingService` (error taxonomy and recovery),
* the processing-status job store (`createJob` / `updateJob` / `cancelJob`),
* the canvas title-truncation procedure (`drawMetadataOverlay` / `drawOverlay`),
* `WebCodecsService` / `VideoEncoderService` capability negotiation,
* `MP4MuxerService.muxToMP4`.

JavaScript `number`s that carry fractional values (timestamps in seconds or
milliseconds, progress percentages, file sizes) are modelled as `ℚ`; integer
counters are modelled as `ℕ`.  `Date` values are their epoch-millisecond
readings.  Mutation of a record is modelled by returning the updated record.
-/

namespace StoryLift

/-! ## Rate limiting (`RateLimitingService.isRequestAllowed`)

The TypeScript service keeps one entry per identity in a `Map`; all claims
concern a single identity, so the embedding is the per-entry state
transition.  `stored = none` models the identity having no map entry yet
(the code then creates `{count: 0, resetTime: now + windowMs}`). -/

structure RateLimitConfig where
  maxRequests : Nat
  windowMs : Nat
  blockDuration : Nat
deriving DecidableEq

/-- Constant `DEFAULT_RATE_LIMIT` from the source: 10 requests per 60 s window,
5-minute block duration. -/
def DEFAULT_RATE_LIMIT : RateLimitConfig :=
  { maxRequests := 10, windowMs := 60000, blockDuration := 300000 }

structure RateLimitInfo where
  remaining : Nat
  resetTime : Nat
  isBlocked : Bool
  blockExpiry : Option Nat
deriving DecidableEq

structure RateLimitEntry where
  count : Nat
  resetTime : Nat
  blockedUntil : Option Nat
deriving DecidableEq

structure RateLimitDecision where
  allowed : Bool
  info : RateLimitInfo
deriving DecidableEq

/-- The guard `entry.blockedUntil && now < entry.blockedUntil`. -/
def blockActive (entry : RateLimitEntry) (now : Nat) : Bool :=
  match entry.blockedUntil with
  | some b => now < b
  | none => false

/-- Function `RateLimitingService.isRequestAllowed`, as the transition on the
identity's entry.  Returns the decision handed to the caller and the entry
stored back in the map. -/
def isRequestAllowed (cfg : RateLimitConfig) (now : Nat)
    (stored : Option RateLimitEntry) : RateLimitDecision × RateLimitEntry :=
  let entry0 := stored.getD { count := 0, resetTime := now + cfg.windowMs, blockedUntil := none }
  if blockActive entry0 now then
    let b := entry0.blockedUntil.getD 0
    (⟨false, ⟨0, b, true, some b⟩⟩, entry0)
  else
    let entry1 :=
      if entry0.resetTime ≤ now then
        { count := 0, resetTime := now + cfg.windowMs, blockedUntil := none }
      else entry0
    if cfg.maxRequests ≤ entry1.count then
      let b := now + cfg.blockDuration
      (⟨false, ⟨0, b, true, some b⟩⟩, { entry1 with blockedUntil := some b })
    else
      let entry2 := { entry1 with count := entry1.count + 1 }
      (⟨true, ⟨cfg.maxRequests - entry2.count, entry2.resetTime, false, none⟩⟩, entry2)

/-- A sequence of `isRequestAllowed` calls for one identity at the given
epoch-millisecond times. -/
def runRequests (cfg : RateLimitConfig) (stored : Option RateLimitEntry) :
    List Nat → List RateLimitDecision × Option RateLimitEntry
  | [] => ([], stored)
  | t :: ts =>
    let step := isRequestAllowed cfg t stored
    let rest := runRequests cfg (some step.2) ts
    (step.1 :: rest.1, rest.2)

/-! ## Abuse prevention (`RateLimitingService.isVideoProcessingAllowed`)

Regular-expression patterns are modelled as boolean predicates on the
filename; the default patterns `/\.exe$/i` … test a case-insensitive
suffix.  The identity's active-job count (`userJobs.get(id).size`) is
passed explicitly. -/

structure VideoInfo where
  fileSize : ℚ
  duration : ℚ
  format : String
  filename : String

structure AbusePreventionConfig where
  maxFileSize : ℚ
  maxDuration : ℚ
  allowedFormats : List String
  maxConcurrentJobs : Nat
  suspiciousPatterns : List (String → Bool)

/-- Case-insensitive suffix test, the meaning of the default denylist
regexes `/\.exe$/i`, `/\.bat$/i`, `/\.cmd$/i`, `/\.ps1$/i`, `/\.sh$/i`. -/
def suffixCI (pat : String) (s : String) : Bool :=
  s.toLower.endsWith pat

/-- Constant `DEFAULT_ABUSE_PREVENTION` from the source. -/
def DEFAULT_ABUSE_PREVENTION : AbusePreventionConfig :=
  { maxFileSize := 500 * 1024 * 1024
    maxDuration := 600
    allowedFormats := ["mp4", "avi", "mov", "mkv", "webm"]
    maxConcurrentJobs := 3
    suspiciousPatterns := [suffixCI (".exe"), suffixCI (".bat"), suffixCI (".cmd"), suffixCI (".ps1"), suffixCI (".sh")] }

/-- Which eligibility check produced the returned `reason` string. -/
inductive DenyReason
  | fileSize
  | duration
  | format
  | suspicious
  | concurrentJobs
deriving DecidableEq

/-- Function `RateLimitingService.isVideoProcessingAllowed`: `none` models
`{allowed: true}`, `some r` models `{allowed: false, reason: …}` with `r`
identifying which check's reason string was returned. -/
def isVideoProcessingAllowed (cfg : AbusePreventionConfig) (info : VideoInfo)
    (userActiveJobCount : Nat) : Option DenyReason :=
  if cfg.maxFileSize < info.fileSize then some .fileSize
  else if cfg.maxDuration < info.duration then some .duration
  else if !(cfg.allowedFormats.contains info.format.toLower) then some .format
  else if cfg.suspiciousPatterns.any (fun p => p info.filename) then some .suspicious
  else if cfg.maxConcurrentJobs ≤ userActiveJobCount then some .concurrentJobs
  else none

/-- The validation rule a `DenyReason` stands for, written independently of
`isVideoProcessingAllowed` so the fail-fast claim compares the code against
the spec's list of rules. -/
def violatesRule (cfg : AbusePreventionConfig) (info : VideoInfo)
    (userActiveJobCount : Nat) : DenyReason → Prop
  | .fileSize => cfg.maxFileSize < info.fileSize
  | .duration => cfg.maxDuration < info.duration
  | .format => cfg.allowedFormats.contains info.format.toLower = false
  | .suspicious => cfg.suspiciousPatterns.any (fun p => p info.filename) = true
  | .concurrentJobs => cfg.maxConcurrentJobs ≤ userActiveJobCount

/-- Position of each rule in the spec's validation order. -/
def ruleIndex : DenyReason → Nat
  | .fileSize => 0
  | .duration => 1
  | .format => 2
  | .suspicious => 3
  | .concurrentJobs => 4

instance (cfg : AbusePreventionConfig) (info : VideoInfo) (n : Nat) (r : DenyReason) :
    Decidable (violatesRule cfg info n r) := by
  cases r <;> (unfold violatesRule; infer_instance)

/-! ## Error handling (`ErrorHandlingService`)

`handleError` mutates `error.retryCount` through `handleRetry`; the
embedding returns the `recovered` flag together with the error record after
the call.  The `result` string of the TypeScript return value is
presentational and omitted. -/

inductive ProcessingErrorType
  | INVALID_VIDEO_FORMAT
  | UNSUPPORTED_CODEC
  | CORRUPTED_VIDEO_FILE
  | VIDEO_TOO_LARGE
  | ENCODING_FAILED
  | FRAME_EXTRACTION_FAILED
  | MEMORY_OVERFLOW
  | TIMEOUT
  | BROWSER_NOT_SUPPORTED
  | WEBCODECS_UNAVAILABLE
  | INSUFFICIENT_PERMISSIONS
  | NETWORK_ERROR
  | API_RATE_LIMIT
  | UPLOAD_FAILED
  | UNKNOWN_ERROR
deriving DecidableEq

inductive RecoveryAction
  | retry
  | fallback
  | user_intervention
  | abort
deriving DecidableEq

structure RecoveryStrategy where
  action : RecoveryAction
  delay : Option Nat
  maxRetries : Option Nat
  fallbackMethod : Option String
  userMessage : Option String
deriving DecidableEq

structure ProcessingError where
  type : ProcessingErrorType
  message : String
  details : Option String
  timestamp : Nat
  recoverable : Bool
  retryCount : Nat
  maxRetries : Nat
  recoveryStrategy : Option RecoveryStrategy
deriving DecidableEq

/-- Function `ErrorHandlingService.getRecoveryStrategy`. -/
def getRecoveryStrategy (t : ProcessingErrorType) (recoverable : Bool) : RecoveryStrategy :=
  if !recoverable then
    ⟨.abort, none, none, none,
      some ("This error cannot be recovered from. Please try a different video or contact support.")⟩
  else
    match t with
    | .NETWORK_ERROR =>
      ⟨.retry, some 5000, some 3, none, some ("Network error detected. Retrying in 5 seconds...")⟩
    | .TIMEOUT =>
      ⟨.retry, some 10000, some 2, none, some ("Processing timed out. Retrying with longer timeout...")⟩
    | .MEMORY_OVERFLOW =>
      ⟨.fallback, none, none, some ("reduce_quality"),
        some ("Memory limit exceeded. Switching to lower quality processing...")⟩
    | .UNSUPPORTED_CODEC =>
      ⟨.fallback, none, none, some ("transcode"),
        some ("Unsupported video codec. Converting to supported format...")⟩
    | .VIDEO_TOO_LARGE =>
      ⟨.user_intervention, none, none, none,
        some ("Video file is too large. Please compress the video or use a shorter clip.")⟩
    | _ =>
      ⟨.retry, some 3000, some 2, none, some ("An error occurred. Retrying...")⟩

/-- Function `ErrorHandlingService.createError` (logging omitted; `timestamp` is the
creation instant). -/
def createError (t : ProcessingErrorType) (message : String) (details : Option String)
    (timestamp : Nat) (recoverable : Bool) (maxRetries : Nat) : ProcessingError :=
  { type := t, message := message, details := details, timestamp := timestamp
    recoverable := recoverable, retryCount := 0, maxRetries := maxRetries
    recoveryStrategy := some (getRecoveryStrategy t recoverable) }

/-- Function `ErrorHandlingService.handleRetry`: waits the strategy's delay, then
increments `retryCount` and reports recovery. -/
def handleRetry (e : ProcessingError) : Bool × ProcessingError :=
  (true, { e with retryCount := e.retryCount + 1 })

/-- Function `ErrorHandlingService.handleFallback`. -/
def handleFallback (e : ProcessingError) (s : RecoveryStrategy) : Bool × ProcessingError :=
  match s.fallbackMethod with
  | some m => if m = "reduce_quality" ∨ m = "transcode" then (true, e) else (false, e)
  | none => (false, e)

/-- Function `ErrorHandlingService.handleError`, returning the `recovered` flag and
the error record after the call. -/
def handleError (e : ProcessingError) : Bool × ProcessingError :=
  if !e.recoverable || e.maxRetries ≤ e.retryCount then (false, e)
  else
    match e.recoveryStrategy with
    | none => (false, e)
    | some s =>
      match s.action with
      | .retry => handleRetry e
      | .fallback => handleFallback e s
      | .user_intervention => (false, e)
      | .abort => (false, e)

/-! ## Job lifecycle (`src/app/api/processing-status/route.ts`)

The route keeps jobs in `processingJobs : Map<string, ProcessingJob>` and
mutates a looked-up record in place; the embedding acts on the looked-up
record (or `Option` of it where the not-found case matters) and returns the
record stored back.  Times are epoch milliseconds as `ℚ`, matching
`Date.now()` arithmetic on JavaScript numbers. -/

inductive JobStatus
  | pending
  | processing
  | completed
  | failed
deriving DecidableEq

structure JobResult where
  videoUrl : Option String
  thumbnailUrl : Option String
  duration : ℚ
  fileSize : ℚ
deriving DecidableEq

structure ProcessingJob where
  id : String
  status : JobStatus
  progress : ℚ
  currentStep : String
  startTime : ℚ
  estimatedTimeRemaining : Option ℚ
  error : Option String
  result : Option JobResult
deriving DecidableEq

/-- Structure `UpdateJobData`: fields absent from the request body are `none` and are
left untouched by `Object.assign`. -/
structure UpdateJobData where
  status : Option JobStatus
  progress : Option ℚ
  currentStep : Option String
  error : Option String
  result : Option JobResult
deriving DecidableEq

/-- Function `createJob`: the stored record for a fresh job id. -/
def createJob (jobId : String) (now : ℚ) : ProcessingJob :=
  { id := jobId
    status := .pending
    progress := 0
    currentStep := "Initializing video processing..."
    startTime := now
    estimatedTimeRemaining := none
    error := none
    result := none }

/-- The `Object.assign(job, data)` merge step of `updateJob`. -/
def mergeJob (job : ProcessingJob) (d : UpdateJobData) : ProcessingJob :=
  { job with
    status := d.status.getD job.status
    progress := d.progress.getD job.progress
    currentStep := d.currentStep.getD job.currentStep
    error := match d.error with | some e => some e | none => job.error
    result := match d.result with | some r => some r | none => job.result }

/-- Function `updateJob` on a job present in the store: merge, clamp a supplied
progress into `[0,100]`, and when the supplied progress is `> 0` recompute
`estimatedTimeRemaining = max(0, elapsed/progress*100 - elapsed)` from the
raw supplied progress. -/
def updateJob (now : ℚ) (job : ProcessingJob) (d : UpdateJobData) : ProcessingJob :=
  let j1 := mergeJob job d
  let j2 :=
    match d.progress with
    | some p => { j1 with progress := max 0 (min 100 p) }
    | none => j1
  match d.progress with
  | some p =>
    if 0 < p then
      let elapsed := now - job.startTime
      let estimatedTotal := elapsed / p * 100
      { j2 with estimatedTimeRemaining := some (max 0 (estimatedTotal - elapsed)) }
    else j2
  | none => j2

/-- The three responses `cancelJob` can produce. -/
inductive CancelOutcome
  | notFound
  | cannotCancel
  | cancelled
deriving DecidableEq

/-- Function `cancelJob`: `stored` is the store's entry for the requested job id;
the second component is that entry after the call (the rest of the store is
never touched). -/
def cancelJob (stored : Option ProcessingJob) : CancelOutcome × Option ProcessingJob :=
  match stored with
  | none => (.notFound, none)
  | some job =>
    if job.status = .completed ∨ job.status = .failed then
      (.cannotCancel, some job)
    else
      (.cancelled, some { job with
        status := .failed
        error := some ("Job cancelled by user")
        currentStep := "Cancelled" })

/-! ## Title truncation (`drawMetadataOverlay` / `drawOverlay`)

Both the pipeline's `drawMetadataOverlay` and the preview's `drawOverlay`
run the same loop: while `ctx.measureText(displayTitle).width > maxWidth`
and the string is non-empty, drop the last character; if anything was
dropped, append `"..."`.  Strings are modelled as `List Char` and the
canvas text measure as an additive per-character width `w : Char → ℕ`.
The loop is embedded with explicit fuel equal to the string length (each
iteration shortens the string by one, so the fuel never runs out before
the loop's own condition stops it). -/

/-- Rendered width of a string under an additive character measure. -/
def strWidth (w : Char → Nat) : List Char → Nat
  | [] => 0
  | c :: cs => w c + strWidth w cs

/-- The while-loop of the truncation procedure. -/
def shrinkTitleAux (w : Char → Nat) (maxWidth : Nat) : Nat → List Char → List Char
  | 0, cs => cs
  | fuel + 1, cs =>
    if maxWidth < strWidth w cs ∧ cs ≠ [] then shrinkTitleAux w maxWidth fuel cs.dropLast
    else cs

/-- The `displayTitle` value after the while-loop. -/
def shrinkTitle (w : Char → Nat) (maxWidth : Nat) (title : List Char) : List Char :=
  shrinkTitleAux w maxWidth title.length title

/-- The full truncate-with-ellipsis procedure:
`if (displayTitle !== metadata.title) displayTitle += '...'`. -/
def truncateTitle (w : Char → Nat) (maxWidth : Nat) (title : List Char) : List Char :=
  let d := shrinkTitle w maxWidth title
  if d = title then title else d ++ ['.', '.', '.']

/-! ## Capability negotiation
(`WebCodecsService.checkDetailedSupport` / `getBestH264Profile` /
`getBestResolution`, `VideoEncoderService.getBestSupportedConfig`)

The runtime's `VideoEncoder.isConfigSupported` / `AudioEncoder.isConfigSupported`
are modelled as oracles answering each probed configuration; `va` / `aa`
model `typeof VideoEncoder !== 'undefined'` / `typeof AudioEncoder !== 'undefined'`.
The oracles are total (the source's try/catch around a throwing query is
not exercised). -/

structure VideoEncCfgQuery where
  codec : String
  width : Nat
  height : Nat
  bitrate : Nat
  framerate : Nat
deriving DecidableEq

structure AudioEncCfgQuery where
  codec : String
  sampleRate : Nat
  numberOfChannels : Nat
  bitrate : Nat
deriving DecidableEq

structure H264Support where
  baseline : Bool
  main : Bool
  high : Bool
deriving DecidableEq

structure AACSupport where
  lc : Bool
  he : Bool
deriving DecidableEq

structure ResolutionSupport where
  r1080x1920 : Bool
  r720x1280 : Bool
deriving DecidableEq

structure FramerateSupport where
  fps30 : Bool
  fps60 : Bool
deriving DecidableEq

structure CodecSupportDetails where
  h264 : H264Support
  aac : AACSupport
  resolution : ResolutionSupport
  framerate : FramerateSupport
deriving DecidableEq

/-- Function `WebCodecsService.checkDetailedSupport`.  The probed configurations are
written inline as in the source; note the `1080x1920` resolution probe is
the same configuration as the baseline-profile probe. -/
def checkDetailedSupport (va aa : Bool) (vOk : VideoEncCfgQuery → Bool)
    (aOk : AudioEncCfgQuery → Bool) : CodecSupportDetails :=
  if !va && !aa then
    { h264 := ⟨false, false, false⟩, aac := ⟨false, false⟩
      resolution := ⟨false, false⟩, framerate := ⟨false, false⟩ }
  else
    { h264 :=
        if va then
          ⟨vOk ⟨"avc1.42E01E", 1080, 1920, 6000000, 30⟩,
           vOk ⟨"avc1.4D401E", 1080, 1920, 6000000, 30⟩,
           vOk ⟨"avc1.64001E", 1080, 1920, 6000000, 30⟩⟩
        else ⟨false, false, false⟩
      aac :=
        if aa then
          ⟨aOk ⟨"mp4a.40.2", 44100, 2, 128000⟩,
           aOk ⟨"mp4a.40.5", 44100, 2, 64000⟩⟩
        else ⟨false, false⟩
      resolution :=
        if va then
          ⟨vOk ⟨"avc1.42E01E", 1080, 1920, 6000000, 30⟩,
           vOk ⟨"avc1.42E01E", 720, 1280, 3000000, 30⟩⟩
        else ⟨false, false⟩
      framerate :=
        if va then
          ⟨vOk ⟨"avc1.42E01E", 1080, 1920, 6000000, 30⟩,
           vOk ⟨"avc1.42E01E", 1080, 1920, 6000000, 60⟩⟩
        else ⟨false, false⟩ }

/-- Function `WebCodecsService.getBestH264Profile`: high ≻ main ≻ baseline, throwing
when none is supported. -/
def getBestH264Profile (va aa : Bool) (vOk : VideoEncCfgQuery → Bool)
    (aOk : AudioEncCfgQuery → Bool) : Except String String :=
  let details := checkDetailedSupport va aa vOk aOk
  if details.h264.high then .ok ("avc1.64001E")
  else if details.h264.main then .ok ("avc1.4D401E")
  else if details.h264.baseline then .ok ("avc1.42E01E")
  else .error ("No H.264 profile supported")

/-- Function `WebCodecsService.getBestResolution`: 1080×1920 ≻ 720×1280, throwing
when neither is supported. -/
def getBestResolution (va aa : Bool) (vOk : VideoEncCfgQuery → Bool)
    (aOk : AudioEncCfgQuery → Bool) : Except String (Nat × Nat) :=
  let details := checkDetailedSupport va aa vOk aOk
  if details.resolution.r1080x1920 then .ok (1080, 1920)
  else if details.resolution.r720x1280 then .ok (720, 1280)
  else .error ("No supported resolution found")

structure VideoEncoderConfig where
  width : Nat
  height : Nat
  fps : Nat
  bitrate : Nat
  codec : String
  profile : String
deriving DecidableEq

/-- Constant `VideoEncoderService.DEFAULT_CONFIG`: the baseline profile at full
1080×1920 resolution. -/
def DEFAULT_CONFIG : VideoEncoderConfig :=
  { width := 1080, height := 1920, fps := 30, bitrate := 6000000
    codec := "avc1.42E01E", profile := "baseline" }

/-- The `"avc1.4D401E"` main-profile configuration constant. -/
def MAIN_PROFILE_CONFIG : VideoEncoderConfig :=
  { width := 1080, height := 1920, fps := 30, bitrate := 6000000
    codec := "avc1.4D401E", profile := "main" }

/-- The `"avc1.64001E"` high-profile configuration constant. -/
def HIGH_PROFILE_CONFIG : VideoEncoderConfig :=
  { width := 1080, height := 1920, fps := 30, bitrate := 6000000
    codec := "avc1.64001E", profile := "high" }

/-- Whether `pat` starts the list `s`. -/
def startsWithL (pat : List Char) (s : List Char) : Bool :=
  match pat, s with
  | [], _ => true
  | _ :: _, [] => false
  | p :: ps, c :: cs => p = c && startsWithL ps cs

/-- Whether `pat` occurs contiguously in `s`. -/
def containsSub (pat : List Char) (s : List Char) : Bool :=
  match s with
  | [] => pat.isEmpty
  | _ :: cs => startsWithL pat s || containsSub pat cs

/-- JavaScript `String.prototype.includes`. -/
def strIncludes (s pat : String) : Bool :=
  containsSub pat.data s.data

/-- Function `VideoEncoderService.getBestSupportedConfig` (the `webcodecs-service`
backed version): best profile and best resolution from the capability
checks, falling back to `DEFAULT_CONFIG` when either query throws. -/
def getBestSupportedConfig (va aa : Bool) (vOk : VideoEncCfgQuery → Bool)
    (aOk : AudioEncCfgQuery → Bool) : VideoEncoderConfig :=
  match getBestH264Profile va aa vOk aOk with
  | .error _ => DEFAULT_CONFIG
  | .ok bestCodec =>
    match getBestResolution va aa vOk aOk with
    | .error _ => DEFAULT_CONFIG
    | .ok bestResolution =>
      { width := bestResolution.1
        height := bestResolution.2
        fps := 30
        bitrate := 6000000
        codec := bestCodec
        profile :=
          if strIncludes bestCodec ("64001E") then ("high")
          else if strIncludes bestCodec ("4D401E") then ("main")
          else ("baseline") }

/-! ## MP4 muxing (`MP4MuxerService.muxToMP4`)

The `mp4maker` container-writing library is external; its availability is
the `mp4makerAvailable` flag (`muxToMP4` first awaits `loadMP4Maker`, which
throws `"MP4 maker library not available"` when the import fails).  The
built container is modelled as the per-track sample lists handed to the
library; the returned `buffer`/`size` come out of the library's `end()` and
are abstracted away, while `duration`, `videoTracks` and `audioTracks` are
returned verbatim by the source. -/

inductive ChunkKind
  | key
  | delta
deriving DecidableEq

structure EncodedVideoChunk where
  kind : ChunkKind
  timestamp : ℚ
  duration : Option ℚ
  data : List Nat
deriving DecidableEq

structure EncodedAudioChunk where
  kind : ChunkKind
  timestamp : ℚ
  duration : Option ℚ
  data : List Nat
deriving DecidableEq

structure AudioEncoderConfig where
  sampleRate : Nat
  numberOfChannels : Nat
  bitrate : Nat
  codec : String
deriving DecidableEq

structure MP4MuxerConfig where
  video : VideoEncoderConfig
  audio : AudioEncoderConfig
  duration : ℚ
deriving DecidableEq

structure MP4Sample where
  data : List Nat
  duration : ℚ
  cts : ℚ
  is_sync : Bool
deriving DecidableEq

/-- The sample lists accumulated in the `mp4maker` instance's two tracks. -/
structure MP4Container where
  videoSamples : List MP4Sample
  audioSamples : List MP4Sample
deriving DecidableEq

structure MuxedMP4Data where
  duration : ℚ
  videoTracks : Nat
  audioTracks : Nat
deriving DecidableEq

/-- JavaScript `chunk.duration || fallback`: `null`/`undefined` and `0` both
fall back. -/
def chunkSampleDuration (d : Option ℚ) (fallback : ℚ) : ℚ :=
  match d with
  | some v => if v = 0 then fallback else v
  | none => fallback

/-- Function `MP4MuxerService.muxToMP4`.  Every chunk satisfies the source's
`chunk.type === 'key' || chunk.type === 'delta'` filter, so each chunk
becomes one sample; no count or timestamp-ordering validation occurs. -/
def muxToMP4 (mp4makerAvailable : Bool) (videoChunks : List EncodedVideoChunk)
    (audioChunks : List EncodedAudioChunk) (config : MP4MuxerConfig) :
    Except String (MuxedMP4Data × MP4Container) :=
  if !mp4makerAvailable then .error ("MP4 maker library not available")
  else
    let videoSamples := videoChunks.map fun c =>
      { data := c.data
        duration := chunkSampleDuration c.duration ((1 / (config.video.fps : ℚ)) * 90000)
        cts := c.timestamp * 90000
        is_sync := c.kind = .key }
    let audioSamples := audioChunks.map fun c =>
      { data := c.data
        duration := chunkSampleDuration c.duration
          ((1 / (config.audio.sampleRate : ℚ)) * (config.audio.sampleRate : ℚ))
        cts := c.timestamp * (config.audio.sampleRate : ℚ)
        is_sync := true }
    .ok ({ duration := config.duration, videoTracks := 1, audioTracks := 1 },
         { videoSamples := videoSamples, audioSamples := audioSamples })

/-- Success test for `Except`. -/
def exceptIsOk {ε α : Type} : Except ε α → Bool
  | .ok _ => true
  | .error _ => false

/-- Strict increase of a timestamp list. -/
def strictlyIncreasing : List ℚ → Bool
  | [] => true
  | [_] => true
  | a :: b :: rest => a < b && strictlyIncreasing (b :: rest)

/-- Audio-track count reported by a successful mux. -/
def muxAudioTracks (e : Except String (MuxedMP4Data × MP4Container)) : Option Nat :=
  match e with
  | .ok r => some r.1.audioTracks
  | .error _ => none

/-- Number of samples added to the audio track by a successful mux. -/
def muxAudioSampleCount (e : Except String (MuxedMP4Data × MP4Container)) : Option Nat :=
  match e with
  | .ok r => some r.2.audioSamples.length
  | .error _ => none

/-! ## Theorems -/

/-- C4 counterexample: with `maxRequests = 3`, `windowMs = 1000`, four
immediate calls then a call at 1000 ms (the window has elapsed) — the
fifth call is still denied, because the fourth call set
`blockedUntil = now + blockDuration` (default 300000 ms), so the block has
*not* expired with the window, contradicting the claim. -/
theorem rateLimiter_post_window_request_still_denied :
    ((runRequests ⟨3, 1000, 300000⟩ none [0, 0, 0, 0, 1000]).1.map
      RateLimitDecision.allowed) = [true, true, true, false, false] := by
  decide

/-- C4 amended: with `maxRequests = 3`, `windowMs = 1000` and the default
`blockDuration = 300000`, four immediate calls yield
allowed = true, true, true, false and the fourth sets `isBlocked = true`;
a request once the 1000 ms window has elapsed is still denied (the block
dominates), and only after the 300000 ms block duration has elapsed is a
request admitted again. -/
theorem rateLimiter_block_outlives_window :
    ((runRequests ⟨3, 1000, 300000⟩ none [0, 0, 0, 0, 1000, 300000]).1.map
        (fun d => (d.allowed, d.info.isBlocked))) =
      [(true, false), (true, false), (true, false), (false, true), (false, true),
        (true, false)] ∧
    ((runRequests ⟨3, 1000, 300000⟩ none [0, 0, 0, 0]).2.map
      RateLimitEntry.blockedUntil) = some (some 300000) := by
  constructor
  · decide
  · decide

/-- C5: an entry whose `blockedUntil` is set denies every request made
before that instant — even when the window reset time has already passed —
and leaves the entry unchanged; window-based admission is impossible until
the block expires. -/
theorem blockedUntil_dominates (cfg : RateLimitConfig) (now : Nat)
    (entry : RateLimitEntry) (b : Nat) (hb : entry.blockedUntil = some b)
    (hlt : now < b) :
    (isRequestAllowed cfg now (some entry)).1.allowed = false ∧
    (isRequestAllowed cfg now (some entry)).1.info.isBlocked = true ∧
    (isRequestAllowed cfg now (some entry)).2 = entry := by
  unfold isRequestAllowed blockActive
  simp [hb, hlt]

/-- Witness for C5: a blocked entry whose window reset time (1 ms) is long
past at `now = 5`, with `blockedUntil = 10`. -/
theorem blockedUntil_dominates_witness :
    (⟨9, 1, some 10⟩ : RateLimitEntry).blockedUntil = some 10 ∧ 5 < 10 ∧
    ((isRequestAllowed DEFAULT_RATE_LIMIT 5 (some ⟨9, 1, some 10⟩)).1.allowed = false ∧
     (isRequestAllowed DEFAULT_RATE_LIMIT 5 (some ⟨9, 1, some 10⟩)).1.info.isBlocked = true ∧
     (isRequestAllowed DEFAULT_RATE_LIMIT 5 (some ⟨9, 1, some 10⟩)).2 = ⟨9, 1, some 10⟩) :=
  ⟨rfl, by decide, blockedUntil_dominates DEFAULT_RATE_LIMIT 5 ⟨9, 1, some 10⟩ 10 rfl (by decide)⟩

/-- C10: cancelling a job whose status is completed or failed returns the
"Cannot cancel completed or failed job" error response and stores the job
back with every field unchanged. -/
theorem cancelJob_terminal_unchanged (job : ProcessingJob)
    (h : job.status = .completed ∨ job.status = .failed) :
    cancelJob (some job) = (.cannotCancel, some job) := by
  simp only [cancelJob]
  rw [if_pos h]

/-- Witness for C10: a concrete completed job. -/
theorem cancelJob_terminal_unchanged_witness :
    ({ createJob ("job_1") 0 with status := .completed } : ProcessingJob).status = JobStatus.completed ∧
    cancelJob (some { createJob ("job_1") 0 with status := .completed }) =
      (.cannotCancel, some { createJob ("job_1") 0 with status := .completed }) :=
  ⟨rfl, cancelJob_terminal_unchanged { createJob ("job_1") 0 with status := .completed } (Or.inl rfl)⟩

/-- C2 counterexample: with the container library available, `muxToMP4`
succeeds on zero video chunks and on a video chunk list whose second
timestamp regresses below the first — it never checks either condition,
contradicting the claim that it fails in those cases. -/
theorem muxToMP4_no_validation :
    exceptIsOk (muxToMP4 true [] []
      ⟨DEFAULT_CONFIG, ⟨44100, 2, 128000, "mp4a.40.2"⟩, 2⟩) = true ∧
    exceptIsOk (muxToMP4 true [⟨.key, 1, none, [0]⟩, ⟨.delta, 0, none, [1]⟩] []
      ⟨DEFAULT_CONFIG, ⟨44100, 2, 128000, "mp4a.40.2"⟩, 2⟩) = true ∧
    strictlyIncreasing (([⟨.key, 1, none, [0]⟩, ⟨.delta, 0, none, [1]⟩] :
      List EncodedVideoChunk).map EncodedVideoChunk.timestamp) = false := by
  refine ⟨rfl, rfl, by decide⟩

/-- C2 amended: `muxToMP4` fails with the explicit error
"MP4 maker library not available" exactly when the container-writing
dependency is unavailable; it performs no validation of the video chunk
count or of timestamp ordering, so with the dependency available it
succeeds on every input (including zero video chunks and regressed
timestamps). -/
theorem muxToMP4_fails_only_without_library (v : List EncodedVideoChunk)
    (a : List EncodedAudioChunk) (cfg : MP4MuxerConfig) :
    muxToMP4 false v a cfg = .error ("MP4 maker library not available") ∧
    exceptIsOk (muxToMP4 true v a cfg) = true := by
  constructor
  · rfl
  · rfl

/-- C1 counterexample: muxing a non-empty, strictly-increasing video chunk
list with an empty audio chunk list succeeds but reports `audioTracks = 1`
(the audio track is always declared), not `audioTracks = 0` as claimed. -/
theorem muxToMP4_emptyAudio_reports_one_audio_track :
    strictlyIncreasing (([⟨.key, 0, none, [0]⟩, ⟨.delta, 1, none, [1]⟩] :
      List EncodedVideoChunk).map EncodedVideoChunk.timestamp) = true ∧
    muxAudioTracks (muxToMP4 true [⟨.key, 0, none, [0]⟩, ⟨.delta, 1, none, [1]⟩] []
      ⟨DEFAULT_CONFIG, ⟨44100, 2, 128000, "mp4a.40.2"⟩, 2⟩) = some 1 ∧
    ¬ muxAudioTracks (muxToMP4 true [⟨.key, 0, none, [0]⟩, ⟨.delta, 1, none, [1]⟩] []
      ⟨DEFAULT_CONFIG, ⟨44100, 2, 128000, "mp4a.40.2"⟩, 2⟩) = some 0 := by
  refine ⟨by decide, rfl, by decide⟩

/-- C1 amended: muxing a non-empty video chunk list with strictly
increasing timestamps and an empty audio chunk list succeeds without
error, and the result declares both tracks — `videoTracks = 1` and
`audioTracks = 1` — while zero samples are added to the audio track. -/
theorem muxToMP4_emptyAudio_succeeds (v : List EncodedVideoChunk)
    (cfg : MP4MuxerConfig) (hne : v ≠ [])
    (hinc : strictlyIncreasing (v.map EncodedVideoChunk.timestamp) = true) :
    ∃ md container, muxToMP4 true v [] cfg = .ok (md, container) ∧
      md.audioTracks = 1 ∧ md.videoTracks = 1 ∧ md.duration = cfg.duration ∧
      container.audioSamples = [] ∧ container.videoSamples.length = v.length := by
  refine ⟨_, _, rfl, rfl, rfl, rfl, rfl, ?_⟩
  simp [muxToMP4]

/-- Witness for C1: a two-chunk video list with timestamps 0 and 1/30. -/
theorem muxToMP4_emptyAudio_succeeds_witness :
    ([⟨.key, 0, none, [0]⟩, ⟨.delta, 1, none, [1]⟩] : List EncodedVideoChunk) ≠ [] ∧
    strictlyIncreasing (([⟨.key, 0, none, [0]⟩, ⟨.delta, 1, none, [1]⟩] :
      List EncodedVideoChunk).map EncodedVideoChunk.timestamp) = true ∧
    (∃ md container,
      muxToMP4 true [⟨.key, 0, none, [0]⟩, ⟨.delta, 1, none, [1]⟩] []
        ⟨MAIN_PROFILE_CONFIG, ⟨44100, 2, 128000, "mp4a.40.2"⟩, 2⟩ = .ok (md, container) ∧
      md.audioTracks = 1 ∧ md.videoTracks = 1 ∧
      md.duration = (⟨MAIN_PROFILE_CONFIG, ⟨44100, 2, 128000, "mp4a.40.2"⟩, 2⟩ :
        MP4MuxerConfig).duration ∧
      container.audioSamples = [] ∧
      container.videoSamples.length =
        ([⟨.key, 0, none, [0]⟩, ⟨.delta, 1, none, [1]⟩] : List EncodedVideoChunk).length) :=
  ⟨by decide, by decide,
    muxToMP4_emptyAudio_succeeds _ _ (by decide) (by decide)⟩

/-- C8: `handleError` returns `recovered = false` and leaves the error
record (in particular `retryCount`) untouched whenever the error is
non-recoverable or `retryCount ≥ maxRetries`; and since the recovery path
increments only under `retryCount < maxRetries`, `retryCount` never
exceeds `maxRetries`. -/
theorem handleError_respects_retry_budget (e : ProcessingError) :
    ((e.recoverable = false ∨ e.maxRetries ≤ e.retryCount) → handleError e = (false, e)) ∧
    (e.retryCount ≤ e.maxRetries → (handleError e).2.retryCount ≤ e.maxRetries) := by
  have hfb : ∀ s, (handleFallback e s).2 = e := by
    intro s
    unfold handleFallback
    rcases s.fallbackMethod with _ | m
    · rfl
    · dsimp only
      split <;> rfl
  constructor
  · intro h
    unfold handleError
    rcases h with h | h
    · rw [if_pos]
      simp [h]
    · rw [if_pos]
      simp [h]
  · intro hle
    unfold handleError
    split
    · exact hle
    · rename_i hcond
      simp only [Bool.or_eq_true, Bool.not_eq_true', decide_eq_true_eq, not_or] at hcond
      obtain ⟨-, hlt⟩ := hcond
      cases hs : e.recoveryStrategy with
      | none => exact hle
      | some s =>
        dsimp only
        cases hact : s.action with
        | retry =>
          unfold handleRetry
          dsimp only
          omega
        | fallback =>
          dsimp only
          rw [hfb s]
          exact hle
        | user_intervention => exact hle
        | abort => exact hle

/-- Witness for C8: a non-recoverable oversize-input error created by
`createError` is rejected unchanged, and its retry count stays within the
budget. -/
theorem handleError_respects_retry_budget_witness :
    ((createError .VIDEO_TOO_LARGE ("too large") none 0 false 3).recoverable = false ∨
      (createError .VIDEO_TOO_LARGE ("too large") none 0 false 3).maxRetries ≤
        (createError .VIDEO_TOO_LARGE ("too large") none 0 false 3).retryCount) ∧
    handleError (createError .VIDEO_TOO_LARGE ("too large") none 0 false 3) =
      (false, createError .VIDEO_TOO_LARGE ("too large") none 0 false 3) ∧
    (handleError (createError .VIDEO_TOO_LARGE ("too large") none 0 false 3)).2.retryCount ≤
      (createError .VIDEO_TOO_LARGE ("too large") none 0 false 3).maxRetries :=
  ⟨Or.inl rfl,
    (handleError_respects_retry_budget (createError .VIDEO_TOO_LARGE ("too large") none 0 false 3)).1
      (Or.inl rfl),
    (handleError_respects_retry_budget (createError .VIDEO_TOO_LARGE ("too large") none 0 false 3)).2
      (by decide)⟩

/-- C7: a newly created job has status `pending` and progress `0`; an
update supplying a progress value stores it clamped into `[0,100]`
(`Math.max(0, Math.min(100, p))`, so `150` stores as `100`), and whenever
the supplied progress is `> 0` the estimated remaining time is recomputed
as `max(0, elapsed/progress*100 - elapsed)` from the raw supplied value. -/
theorem updateJob_clamps_progress_and_recomputes_eta (now : ℚ) (job : ProcessingJob)
    (d : UpdateJobData) (p : ℚ) (hp : d.progress = some p) :
    (updateJob now job d).progress = max 0 (min 100 p) ∧
    (0 < p → (updateJob now job d).estimatedTimeRemaining =
      some (max 0 ((now - job.startTime) / p * 100 - (now - job.startTime)))) ∧
    (∀ jid t, (createJob jid t).status = .pending ∧ (createJob jid t).progress = 0) := by
  refine ⟨?_, ?_, fun jid t => ⟨rfl, rfl⟩⟩
  · unfold updateJob
    rw [hp]
    dsimp only
    split <;> rfl
  · intro h0
    unfold updateJob
    rw [hp]
    dsimp only
    rw [if_pos h0]

/-- Witness for C7: updating a fresh job with progress `150` at
`now = 1000` stores the clamp `max 0 (min 100 150)` and recomputes the
estimated remaining time. -/
theorem updateJob_clamps_progress_and_recomputes_eta_witness :
    (⟨none, some 150, none, none, none⟩ : UpdateJobData).progress = some 150 ∧
    (0 : ℚ) < 150 ∧
    (updateJob 1000 (createJob ("job_1") 0) ⟨none, some 150, none, none, none⟩).progress =
      max 0 (min 100 150) ∧
    (updateJob 1000 (createJob ("job_1") 0) ⟨none, some 150, none, none, none⟩).estimatedTimeRemaining =
      some (max 0 ((1000 - (createJob ("job_1") 0).startTime) / 150 * 100 -
        (1000 - (createJob ("job_1") 0).startTime))) ∧
    (createJob ("job_1") 0).status = .pending ∧ (createJob ("job_1") 0).progress = 0 :=
  ⟨rfl, by norm_num,
    (updateJob_clamps_progress_and_recomputes_eta 1000 (createJob ("job_1") 0)
      ⟨none, some 150, none, none, none⟩ 150 rfl).1,
    (updateJob_clamps_progress_and_recomputes_eta 1000 (createJob ("job_1") 0)
      ⟨none, some 150, none, none, none⟩ 150 rfl).2.1 (by norm_num),
    ((updateJob_clamps_progress_and_recomputes_eta 1000 (createJob ("job_1") 0)
      ⟨none, some 150, none, none, none⟩ 150 rfl).2.2 "job_1" 0).1,
    ((updateJob_clamps_progress_and_recomputes_eta 1000 (createJob ("job_1") 0)
      ⟨none, some 150, none, none, none⟩ 150 rfl).2.2 "job_1" 0).2⟩

/-- A universal statement over the five deny reasons is their finite
conjunction. -/
theorem forall_deny_reason (P : DenyReason → Prop) :
    (∀ q, P q) ↔
      P .fileSize ∧ P .duration ∧ P .format ∧ P .suspicious ∧ P .concurrentJobs :=
  ⟨fun h => ⟨h _, h _, h _, h _, h _⟩,
    fun ⟨h1, h2, h3, h4, h5⟩ q => by cases q <;> assumption⟩

set_option maxHeartbeats 1600000 in
/-- C6: `isVideoProcessingAllowed` validates file size, duration, format,
filename denylist and concurrent-job count in that order and returns the
reason of the *first* violated rule (fail-fast); it returns `allowed` iff
no rule is violated. -/
theorem isVideoProcessingAllowed_first_violation (cfg : AbusePreventionConfig)
    (info : VideoInfo) (n : Nat) :
    (∀ r, isVideoProcessingAllowed cfg info n = some r ↔
      (violatesRule cfg info n r ∧
        ∀ q, ruleIndex q < ruleIndex r → ¬ violatesRule cfg info n q)) ∧
    (isVideoProcessingAllowed cfg info n = none ↔ ∀ r, ¬ violatesRule cfg info n r) := by
  constructor
  · intro r
    unfold isVideoProcessingAllowed
    split_ifs with c1 c2 c3 c4 c5 <;>
      cases r <;>
        simp_all [violatesRule, ruleIndex, forall_deny_reason]
  · unfold isVideoProcessingAllowed
    split_ifs with c1 c2 c3 c4 c5 <;>
      simp_all [violatesRule, forall_deny_reason]

/-- Witness for C6: an input that violates the duration rule (700 s > 600 s)
and the concurrency rule (5 ≥ 3) but not the file-size rule; the returned
reason is the duration violation, the first in validation order. -/
theorem isVideoProcessingAllowed_first_violation_witness :
    isVideoProcessingAllowed ⟨1000000, 600, ["mp4"], 3, []⟩ ⟨1000, 700, "mp4", "a.mp4"⟩ 5 =
      some .duration :=
  ((isVideoProcessingAllowed_first_violation ⟨1000000, 600, ["mp4"], 3, []⟩
      ⟨1000, 700, "mp4", "a.mp4"⟩ 5).1 DenyReason.duration).mpr
    ⟨by decide, fun q hq => by
      cases q
      · exact by decide
      · exact absurd hq (by decide)
      · exact absurd hq (by decide)
      · exact absurd hq (by decide)
      · exact absurd hq (by decide)⟩

/-- Under a uniform character measure the rendered width is proportional to
the length. -/
theorem strWidth_uniform (k : Nat) (cs : List Char) :
    strWidth (fun _ => k) cs = k * cs.length := by
  induction cs with
  | nil => simp [strWidth]
  | cons c cs ih =>
    simp only [strWidth, ih, List.length_cons]
    ring

/-- Under a uniform character measure of positive width `k`, the truncation
loop keeps the longest prefix of rendered width at most `maxW`, i.e. the
first `maxW / k` characters. -/
theorem shrinkTitleAux_uniform (k : Nat) (hk : 0 < k) (maxW : Nat) :
    ∀ fuel cs, cs.length ≤ fuel →
      shrinkTitleAux (fun _ => k) maxW fuel cs = cs.take (min cs.length (maxW / k)) := by
  intro fuel
  induction fuel with
  | zero =>
    intro cs hcs
    have h0 : cs = [] := List.length_eq_zero.mp (Nat.le_zero.mp hcs)
    subst h0
    simp [shrinkTitleAux]
  | succ fuel ih =>
    intro cs hcs
    by_cases hle : cs.length ≤ maxW / k
    · have hw : ¬ (maxW < strWidth (fun _ => k) cs ∧ cs ≠ []) := by
        rintro ⟨hlt, -⟩
        rw [strWidth_uniform, Nat.mul_comm] at hlt
        have hmul : cs.length * k ≤ maxW := (Nat.le_div_iff_mul_le hk).mp hle
        exact Nat.lt_irrefl _ (Nat.lt_of_lt_of_le hlt hmul)
      simp only [shrinkTitleAux]
      rw [if_neg hw, min_eq_left hle, List.take_length]
    · push_neg at hle
      have hne : cs ≠ [] := by
        intro h
        subst h
        simp at hle
      have hwgt : maxW < strWidth (fun _ => k) cs := by
        rw [strWidth_uniform, Nat.mul_comm]
        by_contra hnot
        push_neg at hnot
        exact Nat.not_le.mpr hle ((Nat.le_div_iff_mul_le hk).mpr hnot)
      simp only [shrinkTitleAux]
      rw [if_pos ⟨hwgt, hne⟩,
        ih cs.dropLast (by rw [List.length_dropLast]; omega),
        List.dropLast_eq_take, List.take_take, List.length_take]
      congr 1
      omega

/-- Value of `shrinkTitle` under a uniform positive character measure. -/
theorem shrinkTitle_uniform (k : Nat) (hk : 0 < k) (maxW : Nat) (cs : List Char) :
    shrinkTitle (fun _ => k) maxW cs = cs.take (min cs.length (maxW / k)) :=
  shrinkTitleAux_uniform k hk maxW cs.length cs le_rfl

/-- C9 counterexample: under the proportional measure where `'W'` is twice
as wide as every other character (in particular `'.'`) and max width 3,
`"WW"` truncates to `"W..."`, but re-truncating that output yields
`"W...."` — the procedure is not idempotent on its own outputs. -/
theorem truncateTitle_not_idempotent :
    truncateTitle (fun c => if c = 'W' then 2 else 1) 3
        (truncateTitle (fun c => if c = 'W' then 2 else 1) 3 ['W', 'W']) ≠
      truncateTitle (fun c => if c = 'W' then 2 else 1) 3 ['W', 'W'] := by
  decide

/-- C9 amended: the truncate-with-ellipsis procedure is idempotent whenever
every character has the same rendered width (as with a monospace measure
of the `measureText` metric): re-truncating any output of the procedure at
the same max width returns it unchanged.  (With a proportional measure in
which `'.'` is narrower than a dropped character, idempotence fails.) -/
theorem truncateTitle_uniform_idempotent (w : Char → Nat) (k : Nat)
    (hw : ∀ c, w c = k) (maxW : Nat) (s : List Char) :
    truncateTitle w maxW (truncateTitle w maxW s) = truncateTitle w maxW s := by
  have hwf : w = fun _ => k := funext hw
  subst hwf
  rcases Nat.eq_zero_or_pos k with hk | hk
  · subst hk
    have hid : ∀ t : List Char, truncateTitle (fun _ => (0 : Nat)) maxW t = t := by
      intro t
      have hs : shrinkTitle (fun _ => (0 : Nat)) maxW t = t := by
        unfold shrinkTitle
        cases ht : t.length with
        | zero => rfl
        | succ n =>
          simp only [shrinkTitleAux]
          rw [if_neg]
          rintro ⟨hlt, -⟩
          rw [strWidth_uniform, Nat.zero_mul] at hlt
          exact Nat.not_lt_zero maxW hlt
      simp only [truncateTitle]
      rw [hs, if_pos rfl]
    rw [hid, hid]
  · by_cases hfix : shrinkTitle (fun _ => k) maxW s = s
    · have h1 : truncateTitle (fun _ => k) maxW s = s := by
        simp only [truncateTitle]
        rw [hfix, if_pos rfl]
      rw [h1]
      exact h1
    · have hd : truncateTitle (fun _ => k) maxW s =
          shrinkTitle (fun _ => k) maxW s ++ ['.', '.', '.'] := by
        simp only [truncateTitle]
        rw [if_neg hfix]
      have hLlt : maxW / k < s.length := by
        by_contra hnot
        push_neg at hnot
        exact hfix (by rw [shrinkTitle_uniform k hk, min_eq_left hnot, List.take_length])
      have hlen : (shrinkTitle (fun _ => k) maxW s).length = maxW / k := by
        rw [shrinkTitle_uniform k hk, List.length_take]
        omega
      have hshr2 : shrinkTitle (fun _ => k) maxW
          (shrinkTitle (fun _ => k) maxW s ++ ['.', '.', '.']) =
            shrinkTitle (fun _ => k) maxW s := by
        rw [shrinkTitle_uniform k hk]
        have hlt : (shrinkTitle (fun _ => k) maxW s ++ ['.', '.', '.']).length =
            maxW / k + 3 := by
          simp [hlen]
        rw [hlt]
        have hmin : min (maxW / k + 3) (maxW / k) = maxW / k := by omega
        rw [hmin, List.take_append_eq_append_take, ← hlen, List.take_length,
          Nat.sub_self, List.take_zero, List.append_nil]
      have hne2 : shrinkTitle (fun _ => k) maxW
          (shrinkTitle (fun _ => k) maxW s ++ ['.', '.', '.']) ≠
            shrinkTitle (fun _ => k) maxW s ++ ['.', '.', '.'] := by
        rw [hshr2]
        intro h
        have hcontra := congrArg List.length h
        simp at hcontra
      rw [hd]
      simp only [truncateTitle]
      rw [if_neg hne2, hshr2]

/-- Witness for C9: with the uniform measure of width 1 and max width 3,
re-truncating the truncation of `"abcd"` returns it unchanged. -/
theorem truncateTitle_uniform_idempotent_witness :
    truncateTitle (fun _ => 1) 3 (truncateTitle (fun _ => 1) 3 ['a', 'b', 'c', 'd']) =
      truncateTitle (fun _ => 1) 3 ['a', 'b', 'c', 'd'] :=
  truncateTitle_uniform_idempotent (fun _ => 1) 1 (fun _ => rfl) 3 ['a', 'b', 'c', 'd']

/-- C3 counterexample: when no probed configuration is supported,
`getBestSupportedConfig` falls back to `DEFAULT_CONFIG`, which is the
baseline profile at the *full* 1080×1920 resolution — not the reduced
720×1280 resolution the claim states. -/
theorem getBestSupportedConfig_fallback_is_full_resolution :
    getBestSupportedConfig true true (fun _ => false) (fun _ => false) = DEFAULT_CONFIG ∧
    DEFAULT_CONFIG.profile = "baseline" ∧
    DEFAULT_CONFIG.width = 1080 ∧ DEFAULT_CONFIG.height = 1920 ∧
    ¬ (DEFAULT_CONFIG.width = 720 ∧ DEFAULT_CONFIG.height = 1280) := by
  refine ⟨rfl, rfl, rfl, rfl, ?_⟩
  decide

/-- C3 amended: when the profile probe (baseline/main/high at 1080×1920) or
the resolution probe (baseline at 1080×1920, else baseline at 720×1280 at
3 Mbps) finds nothing supported, `getBestSupportedConfig` returns
`DEFAULT_CONFIG` — the baseline profile at the full 1080×1920 resolution,
not the reduced one; otherwise it returns the highest-preference supported
profile (baseline < main < high) at the highest supported resolution. -/
theorem getBestSupportedConfig_characterization
    (vOk : VideoEncCfgQuery → Bool) (aOk : AudioEncCfgQuery → Bool) :
    getBestSupportedConfig true true vOk aOk =
      (let b := vOk ⟨"avc1.42E01E", 1080, 1920, 6000000, 30⟩
       let m := vOk ⟨"avc1.4D401E", 1080, 1920, 6000000, 30⟩
       let h := vOk ⟨"avc1.64001E", 1080, 1920, 6000000, 30⟩
       let r7 := vOk ⟨"avc1.42E01E", 720, 1280, 3000000, 30⟩
       if (h || m || b) && (b || r7) then
         { width := if b then 1080 else 720
           height := if b then 1920 else 1280
           fps := 30
           bitrate := 6000000
           codec := if h then ("avc1.64001E") else if m then ("avc1.4D401E") else ("avc1.42E01E")
           profile := if h then ("high") else if m then ("main") else ("baseline") }
       else DEFAULT_CONFIG) := by
  simp only [getBestSupportedConfig, getBestH264Profile, getBestResolution,
    checkDetailedSupport]
  cases hb : vOk ⟨"avc1.42E01E", 1080, 1920, 6000000, 30⟩ <;>
  cases hm : vOk ⟨"avc1.4D401E", 1080, 1920, 6000000, 30⟩ <;>
  cases hh : vOk ⟨"avc1.64001E", 1080, 1920, 6000000, 30⟩ <;>
  cases hr : vOk ⟨"avc1.42E01E", 720, 1280, 3000000, 30⟩ <;>
    simp_all <;> decide

end StoryLift
